import Mathlib

/-
  Verification development for the Cellular-Control pump controller
  (src/src/Cellular-Control.cpp).  The state machine, the persistent FRAM
  register, the alert sampler, the error-state recovery escalator and the
  remote command handlers are shallowly embedded as pure Lean functions over
  an explicit device state; per-tick sensor and clock inputs are passed in an
  environment record.  Unsigned 32-bit millis arithmetic is modelled with
  explicit mod 2^32; C `long`/`int` values are modelled as `Int`.
-/

namespace CellularControl

/-- Control states of the supervisory loop, mirroring the `State` enum of the
source (`INITIALIZATION_STATE, ERROR_STATE, IDLE_STATE, PUMPING_STATE,
LOW_BATTERY_STATE, REPORTING_STATE, RESP_WAIT_STATE`). -/
inductive State where
  | INITIALIZATION_STATE
  | ERROR_STATE
  | IDLE_STATE
  | PUMPING_STATE
  | LOW_BATTERY_STATE
  | REPORTING_STATE
  | RESP_WAIT_STATE
deriving DecidableEq

/-- The destructive recovery action chosen by the `ERROR_STATE` escalator:
`System.reset()`, driving `hardResetPin` high, or `fullModemReset()`. -/
inductive RecoveryAction where
  | softReset
  | powerCycle
  | modemReset
deriving DecidableEq

/-- The persistent FRAM record, one field per address of the `FRAM::Addresses`
map: `versionAddr, controlRegisterAddr, resetCountAddr, dailyPumpingMinsAddr,
pumpingStartAddr, lastHookResponseAddr`. -/
structure Fram where
  versionReg : Nat
  controlReg : Nat
  resetCountReg : Int
  dailyPumpingMinsReg : Int
  pumpingStartReg : Int
  lastHookResponseReg : Int
deriving DecidableEq

/-- The in-memory global variables of the program that the modelled code
reads or writes, together with the FRAM record. -/
structure Device where
  state : State
  oldState : State
  fram : Fram
  verboseMode : Bool
  controlRegister : Nat
  resetCount : Int
  alertValue : Nat
  dataInFlight : Bool
  currentHourlyPeriod : Nat
  stateOfCharge : Int
  pumpAmps : Int
  pumpCurrentRaw : Int
  pumpingStart : Int
  dailyPumpingMins : Int
  pumpingEnabled : Bool
  pumpPinOn : Bool
  webhookTimeStamp : Nat
  resetTimeStamp : Nat
  watchdogFlag : Bool
deriving DecidableEq

/-- Per-tick inputs from the outside world: wall clock, `millis()`, battery
gauge, sense pins, raw pump-current ADC reading, PMIC power-good status, the
two rate gates and cloud connectivity.  `alertPublishOutcome` models whether a
best-effort `Particle.publish` of the alert summary succeeds. -/
structure Env where
  timeHour : Nat
  timeNow : Int
  millis : Nat
  soc : Int
  controlPowerPinHigh : Bool
  lowLevelPinHigh : Bool
  pumpCurrentRaw : Int
  lostPower : Bool
  sampleGateFires : Bool
  particleConnected : Bool
  alertPublishOutcome : Bool
deriving DecidableEq

/-- Trigger for Low Batt State (`int lowBattLimit = 30`). -/
def lowBattLimit : Int := 30

/-- How long we will wait for a webhook response (`webhookWait = 45000`). -/
def webhookWait : Nat := 45000

/-- How long we will wait before resetting on an error (`resetWait = 30000`). -/
def resetWait : Nat := 30000

/-- Value of a C `time_t` or `long` read as a 32-bit `unsigned long`. -/
def u32 (i : Int) : Nat := (i % 4294967296).toNat

/-- Unsigned 32-bit `millis() - timestamp` difference with wraparound. -/
def elapsedMillis (now start : Nat) : Nat :=
  (now + 4294967296 - start % 4294967296) % 4294967296

/-- Arduino `map(x, inMin, inMax, outMin, outMax)`: long arithmetic with C
truncating division. -/
def arduinoMap (x inMin inMax outMin outMax : Int) : Int :=
  Int.tdiv ((x - inMin) * (outMax - outMin)) (inMax - inMin) + outMin

/-- The significant-change test of `takeMeasurements`:
`pumpAmps >= lastPumpAmps + 2 || pumpAmps <= lastPumpAmps - 2`. -/
def significantChange (pumpAmps lastPumpAmps : Int) : Bool :=
  decide (pumpAmps ≥ lastPumpAmps + 2) || decide (pumpAmps ≤ lastPumpAmps - 2)

/-- C `isspace` in the default locale. -/
def isSpaceC (c : Char) : Bool :=
  c = ' ' || c = '\t' || c = '\n' || c = '\x0b' || c = '\x0c' || c = '\r'

/-- Leading-whitespace skipping performed by `strtol`. -/
def dropSpaces : List Char → List Char
  | [] => []
  | c :: rest => if isSpaceC c then dropSpaces rest else c :: rest

/-- Numeric value of a decimal digit character. -/
def digitVal (c : Char) : Nat := c.toNat - 48

/-- Value of the maximal leading run of decimal digits; a run of zero digits
yields the accumulator (so `strtol` with no digits returns 0). -/
def leadingNumber : List Char → Nat → Nat
  | [], acc => acc
  | c :: rest, acc =>
      if c.isDigit then leadingNumber rest (10 * acc + digitVal c) else acc

/-- Clamping to a 32-bit `long` as `strtol` does on overflow (the Electron is
a 32-bit ARM target, so `long` and `int` are both 32 bits). -/
def clampLong (v : Int) : Int :=
  if v > 2147483647 then 2147483647
  else if v < -2147483648 then -2147483648
  else v

/-- `strtol(data, &pEND, 10)` on a payload string: skip whitespace, optional
sign, maximal run of decimal digits (empty run gives 0), clamped to `long`. -/
def strtolInt (s : String) : Int :=
  let t := dropSpaces s.data
  match t with
  | '-' :: rest => clampLong (-(leadingNumber rest 0 : Int))
  | '+' :: rest => clampLong ((leadingNumber rest 0 : Int))
  | _ => clampLong ((leadingNumber t 0 : Int))

/-- `atoi(data)` is `(int)strtol(data, NULL, 10)`; on the 32-bit target this
coincides with `strtolInt`. -/
def atoiInt (s : String) : Int := strtolInt s

/-- The `if (verboseMode && state != oldState) publishStateTransition();`
line that opens every loop case: `publishStateTransition` records
`oldState = state` (the publish itself has no modelled effect). -/
def noteTransition (d : Device) : Device :=
  if d.verboseMode = true ∧ d.state ≠ d.oldState then { d with oldState := d.state }
  else d

/-- `takeMeasurements()`: reads the control register from FRAM, rebuilds the
alert bitmask from the sense pins, samples and maps the pump current while the
pump is requested on, opens or closes the persisted pumping session, sets the
power-lost bit, and forces `REPORTING_STATE` when the alert bitmask changed or
the pump current changed significantly.  Width caveat: the control-register
`fram.put` calls pass `byte | int` and `byte ^ int` expressions, which promote
to `int`, so on the device each is a four-byte write at offsets 1 to 4 that
also clobbers the persisted reset-count and daily-minutes bytes; that spill
is omitted here, as no conclusion asserted about this function concerns those
bytes. -/
def takeMeasurements (d : Device) (e : Env) : Device :=
  let controlRegister := d.fram.controlReg
  let lastAlertValue := d.alertValue
  let lastPumpAmps := d.pumpAmps
  let d0 := { d with controlRegister := controlRegister, stateOfCharge := e.soc }
  let a0 : Nat := 0
  let a1 := if e.controlPowerPinHigh then a0 else a0 ||| 1
  let a2 := if e.lowLevelPinHigh then a1 else a1 ||| 2
  let step :=
    if d.pumpingEnabled then
      let pumpAmps := arduinoMap e.pumpCurrentRaw 0 4095 0 32
      let sig := significantChange pumpAmps lastPumpAmps
      let d1 := { d0 with pumpCurrentRaw := e.pumpCurrentRaw, pumpAmps := pumpAmps }
      let d2 :=
        if controlRegister &&& 2 = 0 then
          let f2 := { d1.fram with pumpingStartReg := e.timeNow, controlReg := controlRegister ||| 2 }
          { d1 with pumpingStart := e.timeNow, fram := f2 }
        else d1
      (d2, a2 ||| 4, sig)
    else if controlRegister &&& 2 ≠ 0 then
      let mins := d0.dailyPumpingMins + Int.tdiv (e.timeNow - d0.pumpingStart) 60
      let f2 := { d0.fram with controlReg := controlRegister ^^^ 2, dailyPumpingMinsReg := mins }
      ({ d0 with dailyPumpingMins := mins, fram := f2 }, a2, false)
    else ({ d0 with pumpAmps := 0 }, a2, false)
  let a3 := if e.lostPower then step.2.1 ||| 128 else step.2.1
  let d3 := { step.1 with alertValue := a3 }
  if a3 ≠ lastAlertValue ∨ step.2.2 = true then { d3 with state := State.REPORTING_STATE }
  else d3

/-- The alert bitmask that a `takeMeasurements` run computes from the given
device and environment (bit 0 control power lost, bit 1 low level, bit 2 pump
running, bit 7 input power lost). -/
def measuredAlert (d : Device) (e : Env) : Nat :=
  let a0 : Nat := 0
  let a1 := if e.controlPowerPinHigh then a0 else a0 ||| 1
  let a2 := if e.lowLevelPinHigh then a1 else a1 ||| 2
  let a3 := if d.pumpingEnabled then a2 ||| 4 else a2
  if e.lostPower then a3 ||| 128 else a3

/-- Condition under which a `takeMeasurements` run forces `REPORTING_STATE`:
the recomputed alert bitmask differs from the previous one, or the pump is
requested on and the mapped current changed significantly. -/
def reportTriggered (d : Device) (e : Env) : Prop :=
  measuredAlert d e ≠ d.alertValue ∨
    (d.pumpingEnabled = true ∧
      significantChange (arduinoMap e.pumpCurrentRaw 0 4095 0 32) d.pumpAmps = true)

instance (d : Device) (e : Env) : Decidable (reportTriggered d e) := by
  unfold reportTriggered; infer_instance

/-- The `IDLE_STATE` case of `loop()`: pet the watchdog if due, note a verbose
state transition, then the four independent `if` statements — report on the
hour, low battery, pumping, and the sample-rate-gated `takeMeasurements`. -/
def idleStep (d : Device) (e : Env) : Device :=
  let dA := if d.watchdogFlag then { d with watchdogFlag := false } else d
  let dB := noteTransition dA
  let dC := if e.timeHour ≠ dB.currentHourlyPeriod then { dB with state := State.REPORTING_STATE }
            else dB
  let dD := if dC.stateOfCharge ≤ lowBattLimit then { dC with state := State.LOW_BATTERY_STATE }
            else dC
  let dE := if dD.pumpingEnabled = true ∨ dD.pumpPinOn = true then
              { dD with state := State.PUMPING_STATE }
            else dD
  if e.sampleGateFires then takeMeasurements dE e else dE

/-- The `RESP_WAIT_STATE` case of `loop()`: back to Idle once the in-flight
flag is cleared, otherwise Error after the 45 000 ms webhook window,
recording `resetTimeStamp = millis()`. -/
def respWaitStep (d : Device) (e : Env) : Device :=
  let dA := noteTransition d
  if dA.dataInFlight = false then { dA with state := State.IDLE_STATE }
  else if elapsedMillis e.millis dA.webhookTimeStamp ≥ webhookWait then
    { dA with resetTimeStamp := e.millis, state := State.ERROR_STATE }
  else dA

/-- The `ERROR_STATE` case of `loop()`: after the `resetWait` quiet period
from `resetTimeStamp`, either a soft `System.reset()` (when `resetCount <= 3`),
a hard power cycle (when the last webhook response is more than 7200 s old,
zeroing the persisted reset count), or a full modem reset (otherwise, also
zeroing the persisted reset count).  The chosen destructive action is returned
alongside the updated device.  Width caveat: the reset-count `fram.put`
passes the `int` literal 0, a four-byte write at offsets 2 to 5 that also
zeroes the persisted daily-minutes bytes and the low byte of the persisted
pumping-session start; that spill is omitted here, as no conclusion asserted
about this function concerns those bytes and the device reboots immediately
afterwards. -/
def errorStep (d : Device) (e : Env) : Device × Option RecoveryAction :=
  let dA := noteTransition d
  let lastWebHookResponse := u32 dA.fram.lastHookResponseReg
  if elapsedMillis e.millis dA.resetTimeStamp ≥ resetWait then
    if dA.resetCount ≤ 3 then (dA, some RecoveryAction.softReset)
    else if (u32 e.timeNow + 4294967296 - lastWebHookResponse) % 4294967296 > 7200 then
      ({ dA with fram := { dA.fram with resetCountReg := 0 } }, some RecoveryAction.powerCycle)
    else
      ({ dA with fram := { dA.fram with resetCountReg := 0 } }, some RecoveryAction.modemReset)
  else (dA, none)

/-- Whether the `Particle.publish` inside `resolveAlert()` actually fires and
succeeds: the source gates it on `Particle.connected() && verboseMode`, and
the transport outcome is `alertPublishOutcome`. -/
def resolveAlertPublishes (d : Device) (e : Env) : Bool :=
  e.particleConnected && d.verboseMode && e.alertPublishOutcome

/-- `sendEvent()`: publishes the telemetry payload, records the send time,
marks the current hour as already reported, and sets `dataInFlight`. -/
def sendEvent (d : Device) (e : Env) : Device :=
  { d with webhookTimeStamp := e.millis,
           currentHourlyPeriod := e.timeHour,
           dataInFlight := true }

/-- `dailyCleanup()`: clears verbose mode in memory and in the control
register, zeroes the daily pumping minutes in memory and in FRAM, and writes
the control register back (clock resync has no modelled effect).  Width
caveat: the daily-minutes `fram.put` passes the `int` literal 0, a four-byte
write at offsets 3 to 6 that also zeroes the low two bytes of the persisted
pumping-session start; that spill is omitted here, as no conclusion asserted
about this function concerns those bytes. -/
def dailyCleanup (d : Device) : Device :=
  let controlRegister := 247 &&& d.fram.controlReg
  let d1 := { d with verboseMode := false,
                     controlRegister := controlRegister,
                     dailyPumpingMins := 0,
                     fram := { d.fram with dailyPumpingMinsReg := 0 } }
  { d1 with fram := { d1.fram with controlReg := controlRegister } }

/-- The `REPORTING_STATE` case of `loop()`: with a connection, resolve a
non-zero alert bitmask (best effort), send the telemetry event, run the daily
cleanup at hour 0 and move to `RESP_WAIT_STATE`; without a connection move to
`ERROR_STATE`.  The second component records the `resolveAlert` attempt:
`none` when it was not invoked, `some b` when it was, with `b` the publish
outcome. -/
def reportingStep (d : Device) (e : Env) : Device × Option Bool :=
  let dA := noteTransition d
  if e.particleConnected then
    let published := if dA.alertValue ≠ 0 then some (resolveAlertPublishes dA e) else none
    let dB := sendEvent dA e
    let dC := if e.timeHour = 0 then dailyCleanup dB else dB
    ({ dC with state := State.RESP_WAIT_STATE }, published)
  else ({ dA with state := State.ERROR_STATE }, none)

/-- `UbidotsHandler(event, data)`: no payload leaves everything unchanged;
a payload whose `atoi` value is 200 or 201 stores `Time.now()` as the last
hook response and clears `dataInFlight`; any other payload only surfaces the
response and changes nothing. -/
def UbidotsHandler (d : Device) (timeNow : Int) (data : Option String) : Device :=
  match data with
  | none => d
  | some payload =>
      let responseCode := atoiInt payload
      if responseCode = 200 ∨ responseCode = 201 then
        { d with fram := { d.fram with lastHookResponseReg := timeNow },
                 dataInFlight := false }
      else d

/-- `pumpControl(command)`: the remote-invocable function accepting exactly
the strings `"1"` and `"0"`. -/
def pumpControl (d : Device) (command : String) : Device × Int :=
  if command = "1" then ({ d with pumpingEnabled := true }, 1)
  else if command = "0" then ({ d with pumpingEnabled := false }, 1)
  else (d, 0)

/-- `pumpControlHandler(event, data)`: the pub/sub pump-control channel
handler; parses the payload with `strtol(data, &pEND, 10)` and switches the
pump-request flag on 1, off on 0, leaving it unchanged otherwise. -/
def pumpControlHandler (d : Device) (data : String) : Device :=
  let onOrOff := strtolInt data
  if onOrOff = 1 then { d with pumpingEnabled := true }
  else if onOrOff = 0 then { d with pumpingEnabled := false }
  else d

/-- One byte of a FRAM byte image updated: the image maps byte offsets to
byte values, and a write stores the value reduced mod 256. -/
def writeByte (m : Nat → Nat) (a v : Nat) : Nat → Nat :=
  fun x => if x = a then v % 256 else m x

/-- A four-byte little-endian `fram.put(addr, v)` for an `int`-typed value
`v`: the library put is templated on the value type and transfers
`sizeof(int) = 4` bytes regardless of the declared width of the field at
`addr`. -/
def putI32 (m : Nat → Nat) (a : Nat) (v : Int) : Nat → Nat :=
  let n := u32 v
  writeByte (writeByte (writeByte (writeByte m a n) (a + 1) (n / 256))
    (a + 2) (n / 65536)) (a + 3) (n / 16777216)

/-- Read one byte of a FRAM byte image. -/
def getU8 (m : Nat → Nat) (a : Nat) : Nat := m a % 256

/-- Read a little-endian 16-bit value of a FRAM byte image. -/
def getU16 (m : Nat → Nat) (a : Nat) : Nat :=
  m a % 256 + 256 * (m (a + 1) % 256)

/-- Read a little-endian 32-bit value of a FRAM byte image. -/
def getU32 (m : Nat → Nat) (a : Nat) : Nat :=
  m a % 256 + 256 * (m (a + 1) % 256) + 65536 * (m (a + 2) % 256)
    + 16777216 * (m (a + 3) % 256)

/-- `resetCounts(command)`: on `"1"` the source zeroes the persisted reset
count and daily pumping minutes along with their in-memory copies, clears
`dataInFlight` and the alert bitmask, and returns 1.  The persistent store is
modelled here as a byte image, because both `fram.put` calls pass the
`int`-typed literal 0: each is a four-byte write, covering offsets 2 to 5
from `resetCountAddr` and offsets 3 to 6 from `dailyPumpingMinsAddr`, even
though the declared layout gives those fields one and two bytes — so the
write also reaches the low two bytes of the 32-bit `pumpingStartAddr` field
at offset 5. -/
def resetCounts (d : Device) (m : Nat → Nat) (command : String) :
    Device × (Nat → Nat) × Int :=
  if command = "1" then
    let m1 := putI32 m 2 0
    let m2 := putI32 m1 3 0
    ({ d with resetCount := 0, dataInFlight := false, dailyPumpingMins := 0,
              alertValue := 0 }, m2, 1)
  else (d, m, 0)

/-- An all-zero FRAM record, as produced by first-boot initialization. -/
def framZero : Fram :=
  { versionReg := 0, controlReg := 0, resetCountReg := 0,
    dailyPumpingMinsReg := 0, pumpingStartReg := 0, lastHookResponseReg := 0 }

/-- A baseline healthy device in `IDLE_STATE` used to build concrete test
inputs. -/
def devBase : Device :=
  { state := State.IDLE_STATE, oldState := State.IDLE_STATE, fram := framZero,
    verboseMode := false, controlRegister := 0, resetCount := 0, alertValue := 0,
    dataInFlight := false, currentHourlyPeriod := 0, stateOfCharge := 80,
    pumpAmps := 0, pumpCurrentRaw := 0, pumpingStart := 0, dailyPumpingMins := 0,
    pumpingEnabled := false, pumpPinOn := false, webhookTimeStamp := 0,
    resetTimeStamp := 0, watchdogFlag := false }

/-- A baseline benign environment: power good, no alerts, gate closed,
connected. -/
def envBase : Env :=
  { timeHour := 0, timeNow := 0, millis := 0, soc := 80,
    controlPowerPinHigh := true, lowLevelPinHigh := true, pumpCurrentRaw := 0,
    lostPower := false, sampleGateFires := false, particleConnected := true,
    alertPublishOutcome := true }

/-- Device carrying a pending in-flight request, for concrete evaluation. -/
def devInFlight : Device := { devBase with dataInFlight := true }

/-- Device whose pump-request flag is on, for concrete evaluation. -/
def dPumpOn : Device := { devBase with pumpingEnabled := true }

/-- Concrete FRAM byte image for evaluating the reset-counters operation:
format version 1 at offset 0, control register 0 at offset 1, reset count 7
at offset 2, daily pumping minutes 300 at offsets 3 to 4, pumping session
start 0x11223344 at offsets 5 to 8, last hook response 0x55667788 at offsets
9 to 12, all little endian. -/
def imgC10 : Nat → Nat := fun a =>
  if a = 0 then 1
  else if a = 1 then 0
  else if a = 2 then 7
  else if a = 3 then 0x2c
  else if a = 4 then 0x01
  else if a = 5 then 0x44
  else if a = 6 then 0x33
  else if a = 7 then 0x22
  else if a = 8 then 0x11
  else if a = 9 then 0x88
  else if a = 10 then 0x77
  else if a = 11 then 0x66
  else if a = 12 then 0x55
  else 0

section HelperLemmas

lemma and_two_eq (r : Nat) : r &&& 2 = (r.testBit 1).toNat * 2 := by
  simpa using Nat.and_two_pow r 1

lemma and_two_ne_iff (r : Nat) : r &&& 2 ≠ 0 ↔ r.testBit 1 = true := by
  rw [and_two_eq]
  cases h : r.testBit 1 <;> simp [h]

lemma or_two_and_two (r : Nat) : (r ||| 2) &&& 2 = 2 := by
  rw [and_two_eq]
  have h2 : (2 : Nat).testBit 1 = true := by decide
  simp [Nat.testBit_or, h2]

lemma xor_two_and_two (r : Nat) (h : r &&& 2 ≠ 0) : (r ^^^ 2) &&& 2 = 0 := by
  rw [and_two_ne_iff] at h
  rw [and_two_eq]
  have h2 : (2 : Nat).testBit 1 = true := by decide
  simp [Nat.testBit_xor, h2, h]

lemma mask247_and8 (r : Nat) : (247 &&& r) &&& 8 = 0 := by
  rw [Nat.and_comm 247 r, Nat.and_assoc]
  have : (247 : Nat) &&& 8 = 0 := by decide
  rw [this, Nat.and_zero]

lemma mask247_idem (r : Nat) : 247 &&& (247 &&& r) = 247 &&& r := by
  rw [← Nat.and_assoc]
  have : (247 : Nat) &&& 247 = 247 := Nat.and_self 247
  rw [this]

lemma elapsedMillis_eq (now start : Nat) (h1 : start ≤ now)
    (h2 : now - start < 4294967296) : elapsedMillis now start = now - start := by
  unfold elapsedMillis; omega

lemma stale_guard_iff (a b : Int) (_h0 : 0 ≤ b) (h1 : b ≤ a)
    (h2 : a - b < 4294967296) :
    ((u32 a + 4294967296 - u32 b) % 4294967296 > 7200) ↔ 7200 < a - b := by
  unfold u32; omega

lemma dailyCleanup_dataInFlight (d : Device) :
    (dailyCleanup d).dataInFlight = d.dataInFlight := rfl

lemma dailyCleanup_webhookTimeStamp (d : Device) :
    (dailyCleanup d).webhookTimeStamp = d.webhookTimeStamp := rfl

lemma dailyCleanup_currentHourlyPeriod (d : Device) :
    (dailyCleanup d).currentHourlyPeriod = d.currentHourlyPeriod := rfl

lemma reportTriggered_congr (d d' : Device) (e : Env)
    (h1 : d'.alertValue = d.alertValue) (h2 : d'.pumpingEnabled = d.pumpingEnabled)
    (h3 : d'.pumpAmps = d.pumpAmps) :
    reportTriggered d' e ↔ reportTriggered d e := by
  unfold reportTriggered measuredAlert
  rw [h1, h2, h3]

lemma takeMeasurements_state (d : Device) (e : Env) :
    (takeMeasurements d e).state =
      if reportTriggered d e then State.REPORTING_STATE else d.state := by
  unfold takeMeasurements reportTriggered measuredAlert
  by_cases hp : d.pumpingEnabled <;>
    by_cases hc : d.fram.controlReg &&& 2 = 0 <;>
      simp [hp, hc] <;> split_ifs <;> simp_all

lemma takeMeasurements_state_congr (dBig d : Device) (e : Env)
    (ha : dBig.alertValue = d.alertValue) (hp : dBig.pumpingEnabled = d.pumpingEnabled)
    (hm : dBig.pumpAmps = d.pumpAmps) :
    (takeMeasurements dBig e).state =
      if reportTriggered d e then State.REPORTING_STATE else dBig.state := by
  rw [takeMeasurements_state]
  by_cases h : reportTriggered d e
  · rw [if_pos h, if_pos ((reportTriggered_congr d dBig e ha hp hm).mpr h)]
  · rw [if_neg h, if_neg (fun hh => h ((reportTriggered_congr d dBig e ha hp hm).mp hh))]

lemma noteTransition_state (d : Device) : (noteTransition d).state = d.state := by
  unfold noteTransition; split <;> rfl

lemma noteTransition_fram (d : Device) : (noteTransition d).fram = d.fram := by
  unfold noteTransition; split <;> rfl

lemma noteTransition_dataInFlight (d : Device) :
    (noteTransition d).dataInFlight = d.dataInFlight := by
  unfold noteTransition; split <;> rfl

lemma noteTransition_resetCount (d : Device) :
    (noteTransition d).resetCount = d.resetCount := by
  unfold noteTransition; split <;> rfl

lemma noteTransition_resetTimeStamp (d : Device) :
    (noteTransition d).resetTimeStamp = d.resetTimeStamp := by
  unfold noteTransition; split <;> rfl

lemma noteTransition_webhookTimeStamp (d : Device) :
    (noteTransition d).webhookTimeStamp = d.webhookTimeStamp := by
  unfold noteTransition; split <;> rfl

lemma noteTransition_alertValue (d : Device) :
    (noteTransition d).alertValue = d.alertValue := by
  unfold noteTransition; split <;> rfl

lemma noteTransition_verboseMode (d : Device) :
    (noteTransition d).verboseMode = d.verboseMode := by
  unfold noteTransition; split <;> rfl

lemma noteTransition_currentHourlyPeriod (d : Device) :
    (noteTransition d).currentHourlyPeriod = d.currentHourlyPeriod := by
  unfold noteTransition; split <;> rfl

end HelperLemmas

/-- C10: the reset-counters operation evaluated at a concrete FRAM image.
It does everything the claim asks — returns 1, zeroes the reset count and
the daily pumping minutes in memory and in their persisted bytes, clears the
in-flight flag and the alert bitmask, and leaves the format version, the
control register and the last acknowledgment time untouched — but because
both `fram.put` calls write four `int`-sized bytes, it also zeroes the low
two bytes of the persisted 32-bit pumping-session start at offset 5: the
stored value 0x11223344 (287454020) reads back as 0x11220000 (287440896),
contradicting the one-byte and two-byte widths the source itself declares
for the two counters. -/
theorem resetCounts_width_bug :
    (resetCounts devBase imgC10 ("1")).2.2 = 1 ∧
    (resetCounts devBase imgC10 ("1")).1
        = { devBase with resetCount := 0, dataInFlight := false, dailyPumpingMins := 0, alertValue := 0 } ∧
    getU8 (resetCounts devBase imgC10 ("1")).2.1 0 = getU8 imgC10 0 ∧
    getU8 (resetCounts devBase imgC10 ("1")).2.1 1 = getU8 imgC10 1 ∧
    getU8 (resetCounts devBase imgC10 ("1")).2.1 2 = 0 ∧
    getU16 (resetCounts devBase imgC10 ("1")).2.1 3 = 0 ∧
    getU32 (resetCounts devBase imgC10 ("1")).2.1 9 = getU32 imgC10 9 ∧
    getU32 imgC10 5 = 287454020 ∧
    getU32 (resetCounts devBase imgC10 ("1")).2.1 5 = 287440896 ∧
    getU32 (resetCounts devBase imgC10 ("1")).2.1 5 ≠ getU32 imgC10 5 := by
  refine ⟨rfl, rfl, by decide, by decide, by decide, by decide, by decide,
    by decide, by decide, by decide⟩

/-- C7: daily cleanup is idempotent on the fields it touches — after each of
two consecutive calls the daily pumping minutes are 0 (in memory and in FRAM)
and verbose mode is cleared (in memory and in the persisted control register),
and the second call leaves all those fields exactly as the first left them. -/
theorem dailyCleanup_idempotent (d : Device) :
    (dailyCleanup d).dailyPumpingMins = 0 ∧
    (dailyCleanup d).verboseMode = false ∧
    (dailyCleanup d).fram.dailyPumpingMinsReg = 0 ∧
    (dailyCleanup d).fram.controlReg &&& 8 = 0 ∧
    (dailyCleanup d).controlRegister &&& 8 = 0 ∧
    (dailyCleanup (dailyCleanup d)).dailyPumpingMins = 0 ∧
    (dailyCleanup (dailyCleanup d)).verboseMode = false ∧
    (dailyCleanup (dailyCleanup d)).fram.dailyPumpingMinsReg = 0 ∧
    (dailyCleanup (dailyCleanup d)).fram.controlReg &&& 8 = 0 ∧
    (dailyCleanup (dailyCleanup d)).dailyPumpingMins = (dailyCleanup d).dailyPumpingMins ∧
    (dailyCleanup (dailyCleanup d)).verboseMode = (dailyCleanup d).verboseMode ∧
    (dailyCleanup (dailyCleanup d)).fram.dailyPumpingMinsReg
      = (dailyCleanup d).fram.dailyPumpingMinsReg ∧
    (dailyCleanup (dailyCleanup d)).fram.controlReg = (dailyCleanup d).fram.controlReg ∧
    (dailyCleanup (dailyCleanup d)).controlRegister = (dailyCleanup d).controlRegister := by
  unfold dailyCleanup
  simp [mask247_and8, mask247_idem]

/-- C5: the acknowledgment handler leaves everything unchanged when no
payload is present; on a payload whose numeric code is 200 or 201 it stores
the current time as the last hook response in FRAM and clears `dataInFlight`;
on any other code it leaves `dataInFlight` and the stored last hook response
unchanged. -/
theorem ubidotsHandler_cases (d : Device) (t : Int) (data : Option String) :
    (data = none → UbidotsHandler d t data = d) ∧
    (∀ s, data = some s → (atoiInt s = 200 ∨ atoiInt s = 201) →
        UbidotsHandler d t data =
          { d with fram := { d.fram with lastHookResponseReg := t },
                   dataInFlight := false }) ∧
    (∀ s, data = some s → ¬(atoiInt s = 200 ∨ atoiInt s = 201) →
        (UbidotsHandler d t data).dataInFlight = d.dataInFlight ∧
        (UbidotsHandler d t data).fram.lastHookResponseReg
          = d.fram.lastHookResponseReg) := by
  refine ⟨?_, ?_, ?_⟩
  · rintro rfl; rfl
  · rintro s rfl h
    simp [UbidotsHandler, h]
  · rintro s rfl h
    simp [UbidotsHandler, h]

/-- Witness for C5: a concrete 200-coded payload records the time 1234 and
clears the in-flight flag. -/
theorem ubidotsHandler_cases_witness :
    UbidotsHandler devInFlight 1234 (some ("200")) =
      { devInFlight with fram := { devInFlight.fram with lastHookResponseReg := 1234 },
                         dataInFlight := false } := by
  exact (ubidotsHandler_cases devInFlight 1234 (some ("200"))).2.1 ("200") rfl (by decide)

/-- C4 (RespWait): once the acknowledgment callback has cleared the in-flight
flag the next state is Idle; otherwise, when at least the 45 000 ms webhook
window has elapsed since the send, the next state is Error and the fault time
is recorded; otherwise the state, the in-flight flag and the fault time are
unchanged. -/
theorem respWait_transitions (d : Device) (e : Env)
    (h1 : d.webhookTimeStamp ≤ e.millis)
    (h2 : e.millis - d.webhookTimeStamp < 4294967296) :
    (d.dataInFlight = false → (respWaitStep d e).state = State.IDLE_STATE) ∧
    (d.dataInFlight = true → webhookWait ≤ e.millis - d.webhookTimeStamp →
        (respWaitStep d e).state = State.ERROR_STATE ∧
        (respWaitStep d e).resetTimeStamp = e.millis) ∧
    (d.dataInFlight = true → e.millis - d.webhookTimeStamp < webhookWait →
        (respWaitStep d e).state = d.state ∧
        (respWaitStep d e).dataInFlight = d.dataInFlight ∧
        (respWaitStep d e).resetTimeStamp = d.resetTimeStamp) := by
  have hel : elapsedMillis e.millis (noteTransition d).webhookTimeStamp
      = e.millis - d.webhookTimeStamp := by
    rw [noteTransition_webhookTimeStamp]
    exact elapsedMillis_eq _ _ h1 h2
  refine ⟨?_, ?_, ?_⟩
  · intro hf
    unfold respWaitStep
    simp [noteTransition_dataInFlight, hf]
  · intro hf hw
    unfold respWaitStep
    simp [noteTransition_dataInFlight, hf, hel, hw, noteTransition_resetTimeStamp]
  · intro hf hw
    have hnot : ¬ webhookWait ≤ e.millis - d.webhookTimeStamp := Nat.not_le.mpr hw
    unfold respWaitStep
    simp [noteTransition_dataInFlight, hf, hel, hnot, noteTransition_state,
          noteTransition_resetTimeStamp]

/-- Witness for C4: with the in-flight flag set and exactly 45 000 ms
elapsed, the step moves to Error and records the fault time. -/
theorem respWait_transitions_witness :
    (respWaitStep devInFlight { envBase with millis := 45000 }).state
        = State.ERROR_STATE ∧
    (respWaitStep devInFlight { envBase with millis := 45000 }).resetTimeStamp
        = 45000 := by
  exact (respWait_transitions devInFlight { envBase with millis := 45000 }
    (by decide) (by decide)).2.1 rfl (by decide)

/-- C9 (amended): the pump-control channel handler parses its payload with
base-10 `strtol`; it enables the pump whenever the parse yields 1, disables
it whenever the parse yields 0 (which includes every payload without a
leading number), and leaves the device unchanged for any other parsed value.
The literal strings used by the backend parse to 1 and 0 respectively. -/
theorem pumpControlHandler_parse (d : Device) (s : String) :
    (strtolInt s = 1 → (pumpControlHandler d s).pumpingEnabled = true) ∧
    (strtolInt s = 0 → (pumpControlHandler d s).pumpingEnabled = false) ∧
    (strtolInt s ≠ 1 → strtolInt s ≠ 0 → pumpControlHandler d s = d) ∧
    strtolInt ("1") = 1 ∧ strtolInt ("0") = 0 := by
  refine ⟨?_, ?_, ?_, by decide, by decide⟩
  · intro h; simp [pumpControlHandler, h]
  · intro h; simp [pumpControlHandler, h]
  · intro h1 h0; simp [pumpControlHandler, h1, h0]

/-- Witness for C9 (amended): payload parsing 1 enables the pump, payload
parsing 0 disables it, payload parsing 2 changes nothing. -/
theorem pumpControlHandler_parse_witness :
    (pumpControlHandler devBase ("1")).pumpingEnabled = true ∧
    (pumpControlHandler dPumpOn ("0")).pumpingEnabled = false ∧
    pumpControlHandler dPumpOn ("2") = dPumpOn := by
  refine ⟨?_, ?_, ?_⟩
  · exact (pumpControlHandler_parse devBase ("1")).1 (by decide)
  · exact (pumpControlHandler_parse dPumpOn ("0")).2.1 (by decide)
  · exact (pumpControlHandler_parse dPumpOn ("2")).2.2.1 (by decide) (by decide)

/-- Counterexample for C9 as stated: the payload string of letters is neither
the literal enabling string nor the literal disabling string, yet it turns a
requested-on pump off (its `strtol` parse is 0), so "any other payload leaves
the pump-request flag unchanged" is false. -/
theorem pumpControlHandler_counterexample :
    ("on" : String) ≠ "1" ∧ ("on" : String) ≠ "0" ∧
    dPumpOn.pumpingEnabled = true ∧
    (pumpControlHandler dPumpOn ("on")).pumpingEnabled = false := by
  refine ⟨by decide, by decide, rfl, by decide⟩

/-- C2: after the Error-state quiet period the escalator fires exactly one of
three mutually exclusive tiers, evaluated in order — a soft device reset when
the reset count is at most 3 (the persisted reset count is untouched), a hard
power cycle when more than 7200 s have passed since the last acknowledged
webhook response (the persisted reset count is zeroed), and a full modem
reset otherwise (the persisted reset count is also zeroed). -/
theorem error_escalator_tiers (d : Device) (e : Env)
    (hms : d.resetTimeStamp ≤ e.millis)
    (hmw : e.millis - d.resetTimeStamp < 4294967296)
    (hq : resetWait ≤ e.millis - d.resetTimeStamp)
    (hl0 : 0 ≤ d.fram.lastHookResponseReg)
    (hln : d.fram.lastHookResponseReg ≤ e.timeNow)
    (hlr : e.timeNow - d.fram.lastHookResponseReg < 4294967296) :
    (errorStep d e).2 ≠ none ∧
    ((errorStep d e).2 = some RecoveryAction.softReset ↔ d.resetCount ≤ 3) ∧
    ((errorStep d e).2 = some RecoveryAction.powerCycle ↔
        3 < d.resetCount ∧ 7200 < e.timeNow - d.fram.lastHookResponseReg) ∧
    ((errorStep d e).2 = some RecoveryAction.modemReset ↔
        3 < d.resetCount ∧ e.timeNow - d.fram.lastHookResponseReg ≤ 7200) ∧
    (d.resetCount ≤ 3 → (errorStep d e).1.fram.resetCountReg = d.fram.resetCountReg) ∧
    (3 < d.resetCount → (errorStep d e).1.fram.resetCountReg = 0) := by
  have hgate : elapsedMillis e.millis (noteTransition d).resetTimeStamp ≥ resetWait := by
    rw [noteTransition_resetTimeStamp, elapsedMillis_eq _ _ hms hmw]; exact hq
  have hstale := stale_guard_iff e.timeNow d.fram.lastHookResponseReg hl0 hln hlr
  unfold errorStep
  by_cases hrc : d.resetCount ≤ 3
  · have h32 : ¬ (3 < d.resetCount) := not_lt.mpr hrc
    simp [hgate, noteTransition_resetCount, noteTransition_fram, hrc, h32]
  · have h32 : 3 < d.resetCount := not_le.mp hrc
    by_cases hst : 7200 < e.timeNow - d.fram.lastHookResponseReg
    · simp [hgate, noteTransition_resetCount, noteTransition_fram, hrc, h32,
            hstale, hst]
      all_goals omega
    · simp [hgate, noteTransition_resetCount, noteTransition_fram, hrc, h32,
            hstale, hst, le_of_not_lt hst]

/-- Witness for C2: reset count 4 with a last acknowledgment 8000 s old,
after the quiet period, fires the power-cycle tier and zeroes the persisted
reset count. -/
theorem error_escalator_tiers_witness :
    (errorStep { devBase with resetCount := 4 }
        { envBase with millis := 30000, timeNow := 8000 }).2
      = some RecoveryAction.powerCycle ∧
    (errorStep { devBase with resetCount := 4 }
        { envBase with millis := 30000, timeNow := 8000 }).1.fram.resetCountReg = 0 := by
  have h := error_escalator_tiers { devBase with resetCount := 4 }
      { envBase with millis := 30000, timeNow := 8000 }
      (by decide) (by decide) (by decide) (by decide) (by decide) (by decide)
  exact ⟨h.2.2.1.mpr (by decide), h.2.2.2.2.2 (by decide)⟩

/-- C8: in the Reporting state with a connection present, the alert-summary
resolution is attempted exactly when the alert bitmask is non-zero and its
publish outcome has no effect on the resulting device; the telemetry send
sets `dataInFlight`, records the send time, marks the current hour as already
reported, and the state moves to RespWait. -/
theorem reporting_sends_event (d : Device) (e : Env)
    (hc : e.particleConnected = true) :
    ((reportingStep d e).2 ≠ none ↔ d.alertValue ≠ 0) ∧
    (reportingStep d e).1.dataInFlight = true ∧
    (reportingStep d e).1.webhookTimeStamp = e.millis ∧
    (reportingStep d e).1.currentHourlyPeriod = e.timeHour ∧
    (reportingStep d e).1.state = State.RESP_WAIT_STATE ∧
    (∀ b, (reportingStep d { e with alertPublishOutcome := b }).1
        = (reportingStep d e).1) := by
  refine ⟨?_, ?_, ?_, ?_, ?_, fun b => ?_⟩
  pick_goal 6
  · unfold reportingStep
    by_cases hz : e.timeHour = 0 <;> simp [hc, hz, sendEvent]
  all_goals
    unfold reportingStep <;>
      by_cases hz : e.timeHour = 0 <;>
        by_cases ha : d.alertValue = 0 <;>
          simp [hc, hz, ha, sendEvent, noteTransition_alertValue,
                dailyCleanup_dataInFlight, dailyCleanup_webhookTimeStamp,
                dailyCleanup_currentHourlyPeriod]

/-- Witness for C8: a connected reporting tick with a non-zero alert bitmask
attempts the alert summary, sets the in-flight flag, records send time 777,
marks hour 3 reported, and moves to RespWait. -/
theorem reporting_sends_event_witness :
    (reportingStep { devBase with alertValue := 5 }
        { envBase with millis := 777, timeHour := 3 }).2 ≠ none ∧
    (reportingStep { devBase with alertValue := 5 }
        { envBase with millis := 777, timeHour := 3 }).1.dataInFlight = true ∧
    (reportingStep { devBase with alertValue := 5 }
        { envBase with millis := 777, timeHour := 3 }).1.webhookTimeStamp = 777 ∧
    (reportingStep { devBase with alertValue := 5 }
        { envBase with millis := 777, timeHour := 3 }).1.currentHourlyPeriod = 3 ∧
    (reportingStep { devBase with alertValue := 5 }
        { envBase with millis := 777, timeHour := 3 }).1.state
      = State.RESP_WAIT_STATE := by
  have h := reporting_sends_event { devBase with alertValue := 5 }
      { envBase with millis := 777, timeHour := 3 } rfl
  exact ⟨h.1.mpr (by decide), h.2.1, h.2.2.1, h.2.2.2.1, h.2.2.2.2.1⟩

/-- C3: after every sampler run the pumping-session bit (bit 1) of the
persisted control register equals the pump-request state, so the bit is set
exactly while a session is open; opening a session records the start time,
persists it and sets the bit; closing one clears the bit, adds the elapsed
whole minutes of the session to the daily total and persists the new
total. -/
theorem session_bit_invariant (d : Device) (e : Env) :
    (((takeMeasurements d e).fram.controlReg &&& 2 ≠ 0) ↔ d.pumpingEnabled = true) ∧
    (d.pumpingEnabled = true → d.fram.controlReg &&& 2 = 0 →
        (takeMeasurements d e).pumpingStart = e.timeNow ∧
        (takeMeasurements d e).fram.pumpingStartReg = e.timeNow ∧
        (takeMeasurements d e).fram.controlReg = d.fram.controlReg ||| 2) ∧
    (d.pumpingEnabled = false → d.fram.controlReg &&& 2 ≠ 0 →
        (takeMeasurements d e).dailyPumpingMins
            = d.dailyPumpingMins + Int.tdiv (e.timeNow - d.pumpingStart) 60 ∧
        (takeMeasurements d e).fram.dailyPumpingMinsReg
            = d.dailyPumpingMins + Int.tdiv (e.timeNow - d.pumpingStart) 60 ∧
        (takeMeasurements d e).fram.controlReg = d.fram.controlReg ^^^ 2) := by
  by_cases hp : d.pumpingEnabled <;> by_cases hc : d.fram.controlReg &&& 2 = 0
  · refine ⟨?_, ?_, ?_⟩
    · unfold takeMeasurements
      simp [hp, hc] <;> split_ifs <;> simp [or_two_and_two]
    · intro _ _
      unfold takeMeasurements
      simp [hp, hc] <;> split_ifs <;> simp
    · intro hfalse _
      rw [hp] at hfalse
      exact absurd hfalse (by decide)
  · refine ⟨?_, ?_, ?_⟩
    · unfold takeMeasurements
      simp [hp, hc] <;> split_ifs <;> simp_all
    · intro _ hzero
      exact absurd hzero hc
    · intro hfalse _
      rw [hp] at hfalse
      exact absurd hfalse (by decide)
  · refine ⟨?_, ?_, ?_⟩
    · unfold takeMeasurements
      simp [hp, hc] <;> split_ifs <;> simp [hc]
    · intro htrue _
      rw [htrue] at hp
      exact absurd rfl hp
    · intro _ hset
      exact absurd hc (by simp [hset])
  · refine ⟨?_, ?_, ?_⟩
    · unfold takeMeasurements
      simp [hp, hc] <;> split_ifs <;> simp [xor_two_and_two _ hc]
    · intro htrue _
      rw [htrue] at hp
      exact absurd rfl hp
    · intro _ _
      unfold takeMeasurements
      simp [hp, hc] <;> split_ifs <;> simp

/-- Witness for C3: with the pump requested on and no session bit set, a
sampler run at time 6000 opens the session — it records start time 6000 in
memory and in FRAM and sets bit 1 of the persisted control register. -/
theorem session_bit_invariant_witness :
    (takeMeasurements dPumpOn { envBase with timeNow := 6000 }).pumpingStart = 6000 ∧
    (takeMeasurements dPumpOn { envBase with timeNow := 6000 }).fram.pumpingStartReg
        = 6000 ∧
    (takeMeasurements dPumpOn { envBase with timeNow := 6000 }).fram.controlReg
        = dPumpOn.fram.controlReg ||| 2 := by
  exact (session_bit_invariant dPumpOn { envBase with timeNow := 6000 }).2.1 rfl
    (by decide)

/-- C6: the significant-change flag of the sampler holds exactly when two
consecutive mapped pump-current readings differ by at least 2 amperes — a
delta of exactly 2 is significant and a delta of 1 is not — and a significant
change while the pump is requested on forces the sampler into the Reporting
state. -/
theorem significant_change_spec (a b : Int) (d : Device) (e : Env) :
    (significantChange a b = true ↔ 2 ≤ |a - b|) ∧
    significantChange (b + 2) b = true ∧
    significantChange (b + 1) b = false ∧
    significantChange (b - 1) b = false ∧
    (d.pumpingEnabled = true →
        significantChange (arduinoMap e.pumpCurrentRaw 0 4095 0 32) d.pumpAmps = true →
        (takeMeasurements d e).state = State.REPORTING_STATE) := by
  refine ⟨?_, ?_, ?_, ?_, ?_⟩
  · simp only [significantChange, Bool.or_eq_true, decide_eq_true_eq]
    rw [le_abs]
    omega
  · simp only [significantChange, Bool.or_eq_true, decide_eq_true_eq]
    omega
  · simp only [significantChange, Bool.or_eq_false_iff, decide_eq_false_iff_not]
    omega
  · simp only [significantChange, Bool.or_eq_false_iff, decide_eq_false_iff_not]
    omega
  · intro hp hs
    rw [takeMeasurements_state]
    have ht : reportTriggered d e := Or.inr ⟨hp, hs⟩
    simp [ht]

/-- Witness for C6: with the pump on, previous reading 0 and a full-scale raw
sample mapping to 32 A, the sampler transitions to Reporting. -/
theorem significant_change_spec_witness :
    (takeMeasurements dPumpOn { envBase with pumpCurrentRaw := 4095 }).state
        = State.REPORTING_STATE := by
  exact (significant_change_spec 2 0 dPumpOn
      { envBase with pumpCurrentRaw := 4095 }).2.2.2.2 rfl (by decide)

/-- C1 (amended): the four Idle-state checks are executed as independent
assignments in source order, so when several conditions hold the LAST
applicable one determines the next state — the sample-gated alert engine
(which runs regardless of the earlier checks) takes precedence, then the
pumping condition, then the low-battery condition, and only then the
report-on-the-hour condition. -/
theorem idle_last_condition_wins (d : Device) (e : Env) :
    (idleStep d e).state =
      if e.sampleGateFires = true ∧ reportTriggered d e then State.REPORTING_STATE
      else if d.pumpingEnabled = true ∨ d.pumpPinOn = true then State.PUMPING_STATE
      else if d.stateOfCharge ≤ lowBattLimit then State.LOW_BATTERY_STATE
      else if e.timeHour ≠ d.currentHourlyPeriod then State.REPORTING_STATE
      else d.state := by
  unfold idleStep noteTransition
  by_cases ht : reportTriggered d e <;>
  by_cases hg : e.sampleGateFires <;>
  by_cases hw : d.watchdogFlag <;>
  by_cases hv : d.verboseMode = true ∧ d.state ≠ d.oldState <;>
  by_cases hh : e.timeHour ≠ d.currentHourlyPeriod <;>
  by_cases hb : d.stateOfCharge ≤ lowBattLimit <;>
  by_cases hp : d.pumpingEnabled = true ∨ d.pumpPinOn = true <;>
  simp [hg, hw, hv, hh, hb, hp, ht, takeMeasurements_state] <;>
  first
    | exact ht
    | exact fun hn => absurd ht hn
    | exact fun hy => absurd hy ht
    | exact if_pos ht
    | exact (if_neg ht).trans rfl
    | rfl

set_option maxHeartbeats 2000000 in
/-- Counterexample for C1 as stated: at an Idle tick where the wall-clock
hour differs from the last reported hour (the reporting condition) and the
battery state-of-charge is at the low-battery threshold (a lower-priority
condition), the code ends the tick in the LowBattery state, not the
Reporting state the claimed priority order requires. -/
theorem idle_priority_counterexample :
    ({ devBase with currentHourlyPeriod := 5, stateOfCharge := 25 } : Device).stateOfCharge
        ≤ lowBattLimit ∧
    ({ envBase with timeHour := 6 } : Env).timeHour
        ≠ ({ devBase with currentHourlyPeriod := 5, stateOfCharge := 25 } : Device).currentHourlyPeriod ∧
    (idleStep { devBase with currentHourlyPeriod := 5, stateOfCharge := 25 }
        { envBase with timeHour := 6 }).state = State.LOW_BATTERY_STATE ∧
    (idleStep { devBase with currentHourlyPeriod := 5, stateOfCharge := 25 }
        { envBase with timeHour := 6 }).state ≠ State.REPORTING_STATE := by
  refine ⟨by decide, by decide, by decide, by decide⟩

end CellularControl
